import Mathlib

/-!
Verification of the flappy-bird simulation core against its specification.

The repository holds two variants of the same game:
* `src/src/main.ts` — edge-latch collision design (`inContact` flag, pipes
  carry a sticky `touched` flag that suppresses scoring), pipe speed 5.
* `src/unnamed/part_000` — cooldown collision design (`collisionCooldown`
  millisecond timer), no `touched` flag, pipe speed 3, and an explicit
  action reducer (`createReducer`) handling tick / flap / restart intents.

Both variants share the viewport constants, the bird geometry, the CSV
schedule format and the linear-congruential bounce generator, so those are
embedded once at top level.  Numbers are embedded as exact rationals
(JavaScript numbers, with the spec demanding logical rather than bit-level
agreement); the JavaScript remainder operator is `Int.tmod`.
-/

namespace Viewport

def CANVAS_WIDTH : ℚ := 600

def CANVAS_HEIGHT : ℚ := 400

end Viewport

namespace Birb

def WIDTH : ℚ := 42

def HEIGHT : ℚ := 30

end Birb

namespace RNG

def m : ℤ := 2147483648

def a : ℤ := 1103515245

def c : ℤ := 12345

/-- JavaScript `(a * seed + c) % m`; the JavaScript `%` truncates toward zero,
which is `Int.tmod`. -/
def hash (seed : ℤ) : ℤ := Int.tmod (a * seed + c) m

/-- JavaScript `(2 * hash) / (m - 1) - 1`. -/
def scale (h : ℤ) : ℚ := (2 * (h : ℚ)) / ((m : ℚ) - 1) - 1

end RNG

/-- Bounce magnitude derived from a seed, `4 + Math.abs(scaled) * 4`. -/
def generateBounceVelocity (seed : ℤ) : ℚ :=
  4 + |RNG.scale (RNG.hash seed)| * 4

/-- Schedule entry parsed from one CSV data line. -/
structure PipeData where
  time : ℚ
  gapY : ℚ
  gapH : ℚ
deriving DecidableEq

namespace Main

namespace Constants

def PIPE_WIDTH : ℚ := 50

def TICK_RATE_MS : ℚ := 16

def GRAVITY : ℚ := 1/2

def FLAP_VELOCITY : ℚ := -5

def PIPE_SPEED : ℚ := 5

end Constants

/-- Live pipe of the `main.ts` variant; the optional flags default to
`false` at spawn (`?? false` reads). -/
structure LivePipe where
  id : ℕ
  x : ℚ
  gapYpx : ℚ
  gapHpx : ℚ
  passed : Bool
  touched : Bool
  blocked : Bool
deriving DecidableEq

/-- Game state of the `main.ts` variant. -/
structure State where
  gameStarted : Bool
  gameEnd : Bool
  gameTime : ℕ
  birdY : ℚ
  birdVy : ℚ
  lives : ℤ
  score : ℤ
  pipes : List LivePipe
  nextPipeIdx : ℕ
  inContact : Bool
deriving DecidableEq

def initialState : State :=
  { gameStarted := false
    gameEnd := false
    gameTime := 0
    birdY := Viewport.CANVAS_HEIGHT / 2
    birdVy := 0
    lives := 3
    score := 0
    pipes := []
    nextPipeIdx := 0
    inContact := false }

def ticksToSec (ticks : ℕ) : ℚ := ((ticks : ℚ) * Constants.TICK_RATE_MS) / 1000

/-- The spawn `while` loop: as long as the next descriptor exists and its
spawn time has arrived, materialize it at the right edge and advance the
pointer. -/
def spawnLoop (sched : List PipeData) (tSec : ℚ) (next : ℕ) (acc : List LivePipe) :
    ℕ × List LivePipe :=
  if h : next < sched.length then
    if (sched.get ⟨next, h⟩).time ≤ tSec then
      spawnLoop sched tSec (next + 1)
        (acc ++ [{ id := next
                   x := Viewport.CANVAS_WIDTH
                   gapYpx := (sched.get ⟨next, h⟩).gapY * Viewport.CANVAS_HEIGHT
                   gapHpx := (sched.get ⟨next, h⟩).gapH * Viewport.CANVAS_HEIGHT
                   passed := false
                   touched := false
                   blocked := false }])
    else (next, acc)
  else (next, acc)
termination_by sched.length - next
decreasing_by simp_wf; omega

/-- Result of the spawn phase for one tick from state `s`. -/
def spawnResult (s : State) (sched : List PipeData) : ℕ × List LivePipe :=
  spawnLoop sched (ticksToSec (s.gameTime + 1)) s.nextPipeIdx s.pipes

/-- Pipes after the move-left and cull phase. -/
def movedPipes (s : State) (sched : List PipeData) : List LivePipe :=
  ((spawnResult s sched).2.map (fun p => { p with x := p.x - Constants.PIPE_SPEED })).filter
    (fun p => decide (0 ≤ p.x + Constants.PIPE_WIDTH))

def vyNew (s : State) : ℚ := s.birdVy + Constants.GRAVITY

def yNew (s : State) : ℚ := s.birdY + vyNew s

def topBound : ℚ := Birb.HEIGHT / 2

def botBound : ℚ := Viewport.CANVAS_HEIGHT - Birb.HEIGHT / 2

def yClamped (s : State) : ℚ := max topBound (min botBound (yNew s))

def birdX : ℚ := Viewport.CANVAS_WIDTH * (3/10)

def birdL : ℚ := birdX - Birb.WIDTH / 2

def birdR : ℚ := birdX + Birb.WIDTH / 2

def birdT (s : State) : ℚ := yClamped s - Birb.HEIGHT / 2

def birdB (s : State) : ℚ := yClamped s + Birb.HEIGHT / 2

/-- One iteration of the pipe fold in `main.ts`: the accumulator carries the
updated pipe list, the `hit` flag and the `scoreInc` counter. -/
def pipeFoldStep (T B : ℚ) (acc : List LivePipe × Bool × ℤ) (p : LivePipe) :
    List LivePipe × Bool × ℤ :=
  let left := p.x
  let right := p.x + Constants.PIPE_WIDTH
  let gapTop := p.gapYpx - p.gapHpx / 2
  let gapBot := p.gapYpx + p.gapHpx / 2
  let overlapX : Bool := decide (left < birdR) && decide (birdL < right)
  let hitThisPipe : Bool := overlapX && (decide (T < gapTop) || decide (gapBot < B))
  let touched : Bool := p.touched || hitThisPipe
  let justPassed : Bool := !p.passed && decide (right < birdL)
  (acc.1 ++ [{ p with passed := p.passed || justPassed, touched := touched }],
   acc.2.1 || hitThisPipe,
   acc.2.2 + if justPassed && !touched then 1 else 0)

def pipeFold (s : State) (sched : List PipeData) : List LivePipe × Bool × ℤ :=
  (movedPipes s sched).foldl (pipeFoldStep (birdT s) (birdB s)) ([], false, 0)

def updatedPipes (s : State) (sched : List PipeData) : List LivePipe :=
  (pipeFold s sched).1

def pipesHit (s : State) (sched : List PipeData) : Bool :=
  (pipeFold s sched).2.1

def scoreInc (s : State) (sched : List PipeData) : ℤ :=
  (pipeFold s sched).2.2

def screenHitTop (s : State) : Bool := decide (yNew s < topBound)

def screenHitBot (s : State) : Bool := decide (botBound < yNew s)

def collisionOccurred (s : State) (sched : List PipeData) : Bool :=
  (pipesHit s sched || screenHitTop s || screenHitBot s) || screenHitTop s || screenHitBot s

def shouldConsumeLife (s : State) (sched : List PipeData) : Bool :=
  !s.inContact && collisionOccurred s sched && decide (0 < s.lives)

def seed (s : State) : ℤ :=
  ((s.gameTime : ℤ) + 1) * 997 + s.score * 101 + s.lives * 13

def collidedWithTopHalf (s : State) (sched : List PipeData) : Bool :=
  decide (yNew s < topBound) ||
    (updatedPipes s sched).any (fun pipe =>
      let left := pipe.x
      let right := pipe.x + Constants.PIPE_WIDTH
      let overlapX : Bool := decide (left < birdR) && decide (birdL < right)
      let gapTop := pipe.gapYpx - pipe.gapHpx / 2
      overlapX && decide (birdT s < gapTop))

def birdVyOut (s : State) (sched : List PipeData) : ℚ :=
  if shouldConsumeLife s sched then
    if collidedWithTopHalf s sched then generateBounceVelocity (seed s)
    else -generateBounceVelocity (seed s)
  else vyNew s

def livesOut (s : State) (sched : List PipeData) : ℤ :=
  if shouldConsumeLife s sched then s.lives - 1 else s.lives

def gameEndOut (s : State) (sched : List PipeData) : Bool :=
  decide (livesOut s sched ≤ 0) ||
    (decide (sched.length ≤ (spawnResult s sched).1) && decide (updatedPipes s sched = []))

/-- One simulation step of the `main.ts` variant. -/
def tick (s : State) (sched : List PipeData) : State :=
  if s.gameEnd then s
  else
    { s with
      gameTime := s.gameTime + 1
      birdVy := birdVyOut s sched
      birdY := yClamped s
      pipes := updatedPipes s sched
      nextPipeIdx := (spawnResult s sched).1
      lives := livesOut s sched
      score := s.score + scoreInc s sched
      gameEnd := gameEndOut s sched
      inContact := collisionOccurred s sched }

/-- The function that the `flap$` stream applies to the state on a Space
keypress. -/
def flapIntent (s : State) : State :=
  { s with gameStarted := true, birdVy := Constants.FLAP_VELOCITY }

/-- A pipe is passed this step exactly when its `passed` flag is still
false and the bird left edge lies strictly beyond the pipe right edge. -/
def justPassedB (p : LivePipe) : Bool :=
  !p.passed && decide (p.x + Constants.PIPE_WIDTH < birdL)

/-- The per-pipe collision test of `main.ts`: horizontal overlap of the
bird box with the pipe column, and the bird box leaving the gap. -/
def hitPipeB (T B : ℚ) (p : LivePipe) : Bool :=
  (decide (p.x < birdR) && decide (birdL < p.x + Constants.PIPE_WIDTH)) &&
    (decide (T < p.gapYpx - p.gapHpx / 2) || decide (p.gapYpx + p.gapHpx / 2 < B))

/-- The per-pipe flag update performed by the fold of `main.ts`. -/
def updPipe (T B : ℚ) (p : LivePipe) : LivePipe :=
  { p with passed := p.passed || justPassedB p, touched := p.touched || hitPipeB T B p }

/-- Iterated simulation steps against a fixed schedule. -/
def tickSeq (sched : List PipeData) (n : ℕ) (s : State) : State :=
  (fun s => tick s sched)^[n] s

end Main

namespace Part0

namespace Constants

def PIPE_WIDTH : ℚ := 50

def TICK_RATE_MS : ℚ := 16

def GRAVITY : ℚ := 1/2

def FLAP_VELOCITY : ℚ := -5

def PIPE_SPEED : ℚ := 3

end Constants

/-- Live pipe of the `part_000` variant (no `touched` flag). -/
structure LivePipe where
  id : ℕ
  x : ℚ
  gapYpx : ℚ
  gapHpx : ℚ
  passed : Bool
deriving DecidableEq

/-- Game state of the `part_000` variant: the collision latch is a
millisecond cooldown timer. -/
structure State where
  gameStarted : Bool
  gameEnd : Bool
  gameTime : ℕ
  birdY : ℚ
  birdVy : ℚ
  lives : ℤ
  score : ℤ
  pipes : List LivePipe
  nextPipeIdx : ℕ
  collisionCooldown : ℚ
deriving DecidableEq

def initialState : State :=
  { gameStarted := false
    gameEnd := false
    gameTime := 0
    birdY := Viewport.CANVAS_HEIGHT / 2
    birdVy := 0
    lives := 3
    score := 0
    pipes := []
    nextPipeIdx := 0
    collisionCooldown := 0 }

def ticksToSec (ticks : ℕ) : ℚ := ((ticks : ℚ) * Constants.TICK_RATE_MS) / 1000

/-- The spawn `while` loop of the `part_000` variant. -/
def spawnLoop (sched : List PipeData) (tSec : ℚ) (next : ℕ) (acc : List LivePipe) :
    ℕ × List LivePipe :=
  if h : next < sched.length then
    if (sched.get ⟨next, h⟩).time ≤ tSec then
      spawnLoop sched tSec (next + 1)
        (acc ++ [{ id := next
                   x := Viewport.CANVAS_WIDTH
                   gapYpx := (sched.get ⟨next, h⟩).gapY * Viewport.CANVAS_HEIGHT
                   gapHpx := (sched.get ⟨next, h⟩).gapH * Viewport.CANVAS_HEIGHT
                   passed := false }])
    else (next, acc)
  else (next, acc)
termination_by sched.length - next
decreasing_by simp_wf; omega

def spawnResult (s : State) (sched : List PipeData) : ℕ × List LivePipe :=
  spawnLoop sched (ticksToSec (s.gameTime + 1)) s.nextPipeIdx s.pipes

def movedPipes (s : State) (sched : List PipeData) : List LivePipe :=
  ((spawnResult s sched).2.map (fun p => { p with x := p.x - Constants.PIPE_SPEED })).filter
    (fun p => decide (0 ≤ p.x + Constants.PIPE_WIDTH))

def vyNew (s : State) : ℚ := s.birdVy + Constants.GRAVITY

def yNew (s : State) : ℚ := s.birdY + vyNew s

def topBound : ℚ := Birb.HEIGHT / 2

def botBound : ℚ := Viewport.CANVAS_HEIGHT - Birb.HEIGHT / 2

def yClamped (s : State) : ℚ := max topBound (min botBound (yNew s))

def birdX : ℚ := Viewport.CANVAS_WIDTH * (3/10)

def birdL : ℚ := birdX - Birb.WIDTH / 2

def birdR : ℚ := birdX + Birb.WIDTH / 2

def birdT (s : State) : ℚ := yClamped s - Birb.HEIGHT / 2

def birdB (s : State) : ℚ := yClamped s + Birb.HEIGHT / 2

/-- One iteration of the pipe fold in `part_000`: scoring is unconditional
on a first pass, and only a passing pipe is rebuilt. -/
def pipeFoldStep (T B : ℚ) (acc : List LivePipe × Bool × ℤ) (p : LivePipe) :
    List LivePipe × Bool × ℤ :=
  let left := p.x
  let right := p.x + Constants.PIPE_WIDTH
  let gapTop := p.gapYpx - p.gapHpx / 2
  let gapBot := p.gapYpx + p.gapHpx / 2
  let overlapX : Bool := decide (left < birdR) && decide (birdL < right)
  let hitTop : Bool := overlapX && decide (T < gapTop)
  let hitBottom : Bool := overlapX && decide (gapBot < B)
  let justPassed : Bool := !p.passed && decide (right < birdL)
  (acc.1 ++ [if justPassed then { p with passed := true } else p],
   acc.2.1 || hitTop || hitBottom,
   acc.2.2 + if justPassed then 1 else 0)

def pipeFold (s : State) (sched : List PipeData) : List LivePipe × Bool × ℤ :=
  (movedPipes s sched).foldl (pipeFoldStep (birdT s) (birdB s)) ([], false, 0)

def updatedPipes (s : State) (sched : List PipeData) : List LivePipe :=
  (pipeFold s sched).1

def pipesHit (s : State) (sched : List PipeData) : Bool :=
  (pipeFold s sched).2.1

def scoreInc (s : State) (sched : List PipeData) : ℤ :=
  (pipeFold s sched).2.2

def screenHitTop (s : State) : Bool := decide (yNew s < topBound)

def screenHitBot (s : State) : Bool := decide (botBound < yNew s)

/-- The decremented cooldown, `Math.max(0, s.collisionCooldown - TICK_RATE_MS)`. -/
def nextCooldown (s : State) : ℚ :=
  max 0 (s.collisionCooldown - Constants.TICK_RATE_MS)

def collisionOccurred (s : State) (sched : List PipeData) : Bool :=
  (pipesHit s sched || screenHitTop s || screenHitBot s) || screenHitTop s || screenHitBot s

def shouldConsumeLife (s : State) (sched : List PipeData) : Bool :=
  decide (nextCooldown s ≤ 0) && collisionOccurred s sched && decide (0 < s.lives)

def seed (s : State) : ℤ :=
  ((s.gameTime : ℤ) + 1) * 997 + s.score * 101 + s.lives * 13

def collidedWithTopHalf (s : State) (sched : List PipeData) : Bool :=
  decide (yNew s < topBound) ||
    (updatedPipes s sched).any (fun pipe =>
      let pipeLeft := pipe.x
      let pipeRight := pipe.x + Constants.PIPE_WIDTH
      let overlapX : Bool := decide (pipeLeft < birdR) && decide (birdL < pipeRight)
      let gapTop := pipe.gapYpx - pipe.gapHpx / 2
      overlapX && decide (birdT s < gapTop))

def birdVyOut (s : State) (sched : List PipeData) : ℚ :=
  if shouldConsumeLife s sched then
    if collidedWithTopHalf s sched then generateBounceVelocity (seed s)
    else -generateBounceVelocity (seed s)
  else vyNew s

def livesOut (s : State) (sched : List PipeData) : ℤ :=
  if shouldConsumeLife s sched then s.lives - 1 else s.lives

def cooldownOut (s : State) (sched : List PipeData) : ℚ :=
  if shouldConsumeLife s sched then 600 else nextCooldown s

def gameEndOut (s : State) (sched : List PipeData) : Bool :=
  decide (livesOut s sched ≤ 0) ||
    (decide (sched.length ≤ (spawnResult s sched).1) && decide (updatedPipes s sched = []))

/-- One simulation step of the `part_000` variant. -/
def tick (s : State) (sched : List PipeData) : State :=
  if s.gameEnd then s
  else
    { s with
      gameTime := s.gameTime + 1
      birdVy := birdVyOut s sched
      birdY := yClamped s
      pipes := updatedPipes s sched
      nextPipeIdx := (spawnResult s sched).1
      lives := livesOut s sched
      score := s.score + scoreInc s sched
      gameEnd := gameEndOut s sched
      collisionCooldown := cooldownOut s sched }

/-- Intents handled by the reducer. -/
inductive Action where
  | tick : Action
  | flap : Action
  | restart : Action
deriving DecidableEq

/-- The action reducer of `part_000`: tick delegates to the simulation
step, flap overwrites the vertical velocity and marks the game started,
restart resets to the initial state only once the game has ended. -/
def createReducer (sched : List PipeData) (s : State) (a : Action) : State :=
  match a with
  | Action.tick => tick s sched
  | Action.flap => { s with gameStarted := true, birdVy := Constants.FLAP_VELOCITY }
  | Action.restart => if s.gameEnd then initialState else s

/-- A pipe is passed this step exactly when its `passed` flag is still
false and the bird left edge lies strictly beyond the pipe right edge. -/
def justPassedB (p : LivePipe) : Bool :=
  !p.passed && decide (p.x + Constants.PIPE_WIDTH < birdL)

/-- The per-pipe collision test of `part_000`. -/
def hitPipeB (T B : ℚ) (p : LivePipe) : Bool :=
  (decide (p.x < birdR) && decide (birdL < p.x + Constants.PIPE_WIDTH)) &&
    (decide (T < p.gapYpx - p.gapHpx / 2) || decide (p.gapYpx + p.gapHpx / 2 < B))

/-- The per-pipe flag update performed by the fold of `part_000`: only a
passing pipe is rebuilt. -/
def updPipe (p : LivePipe) : LivePipe :=
  if justPassedB p then { p with passed := true } else p

/-- Iterated simulation steps against a fixed schedule. -/
def tickSeq (sched : List PipeData) (n : ℕ) (s : State) : State :=
  (fun s => tick s sched)^[n] s

/-- Folding the reducer over a list of intents from the initial state:
exactly the `scan(reducer, initialState)` of the game loop. -/
def run (sched : List PipeData) (acts : List Action) : State :=
  acts.foldl (createReducer sched) initialState

end Part0

/-!
Concrete fixtures used by counterexamples and witnesses below.
-/

/-- A schedule with a single far-future pipe: nothing spawns during the
first ticks and the schedule is not exhausted. -/
def schedFar : List PipeData := [{ time := 1000, gapY := 1/2, gapH := 1/2 }]

/-- A `main.ts` state resting at the bottom bound with downward velocity,
one life left and the contact latch already set: the next step collides
with the bottom screen edge but the edge latch suppresses the life loss. -/
def latchedState : Main.State :=
  { Main.initialState with lives := 1, inContact := true, birdY := 385, birdVy := 10 }

/-- Same situation with the latch clear: the next collision consumes the
last life. -/
def unlatchedState : Main.State :=
  { Main.initialState with lives := 1, inContact := false, birdY := 385, birdVy := 10 }

/-- A `part_000` state in the same collision situation with the cooldown
expired. -/
def expiredCooldownState : Part0.State :=
  { Part0.initialState with lives := 1, collisionCooldown := 0, birdY := 385, birdVy := 10 }

/-- The state one tick after `latchedState`: still pinned at the bottom
bound, still in contact, still one life. -/
def latchedContact2State : Main.State :=
  { gameStarted := false, gameEnd := false, gameTime := 1, birdY := 385, birdVy := 21/2,
    lives := 1, score := 0, pipes := [], nextPipeIdx := 0, inContact := true }

/-- A `part_000` state in the middle of the invulnerability window. -/
def coolingState : Part0.State :=
  { Part0.initialState with lives := 2, collisionCooldown := 600, birdY := 385, birdVy := 10 }

/-- An ended `main.ts` state. -/
def endedMainState : Main.State := { Main.initialState with gameEnd := true }

/-- An ended `part_000` state. -/
def endedPart0State : Part0.State := { Part0.initialState with gameEnd := true }

/-- A `main.ts` state with one unpassed pipe just behind the bird: this
step the bird left edge moves strictly beyond the pipe right edge. -/
def scoringState : Main.State :=
  { Main.initialState with
      pipes := [{ id := 0, x := 105, gapYpx := 200, gapHpx := 200,
                  passed := false, touched := false, blocked := false }] }

/-- A `part_000` state with one unpassed pipe just behind the bird. -/
def scoringStateP0 : Part0.State :=
  { Part0.initialState with
      pipes := [{ id := 0, x := 107, gapYpx := 200, gapHpx := 200, passed := false }] }

/-!
Theorems.
-/

set_option maxRecDepth 8000

/-- Evaluation: the unlatched bottom-edge fixture collides this step. -/
theorem collisionOccurred_eval_unlatched :
    Main.collisionOccurred unlatchedState schedFar = true := by
  simp [Main.collisionOccurred, Main.pipesHit, Main.pipeFold, Main.movedPipes,
    Main.spawnResult, Main.spawnLoop, Main.ticksToSec, Main.Constants.TICK_RATE_MS,
    Main.screenHitTop, Main.screenHitBot, Main.yNew, Main.vyNew, Main.topBound, Main.botBound,
    Main.Constants.GRAVITY, Birb.HEIGHT, Viewport.CANVAS_HEIGHT, unlatchedState, schedFar,
    Main.initialState]
  norm_num

/-- Evaluation: the latched bottom-edge fixture collides this step. -/
theorem collisionOccurred_eval_latched :
    Main.collisionOccurred latchedState schedFar = true := by
  simp [Main.collisionOccurred, Main.pipesHit, Main.pipeFold, Main.movedPipes,
    Main.spawnResult, Main.spawnLoop, Main.ticksToSec, Main.Constants.TICK_RATE_MS,
    Main.screenHitTop, Main.screenHitBot, Main.yNew, Main.vyNew, Main.topBound, Main.botBound,
    Main.Constants.GRAVITY, Birb.HEIGHT, Viewport.CANVAS_HEIGHT, latchedState, schedFar,
    Main.initialState]
  norm_num

/-- Evaluation: the expired-cooldown fixture collides this step. -/
theorem collisionOccurred_eval_expired :
    Part0.collisionOccurred expiredCooldownState schedFar = true := by
  simp [Part0.collisionOccurred, Part0.pipesHit, Part0.pipeFold, Part0.movedPipes,
    Part0.spawnResult, Part0.spawnLoop, Part0.ticksToSec, Part0.Constants.TICK_RATE_MS,
    Part0.screenHitTop, Part0.screenHitBot, Part0.yNew, Part0.vyNew, Part0.topBound,
    Part0.botBound, Part0.Constants.GRAVITY, Birb.HEIGHT, Viewport.CANVAS_HEIGHT,
    expiredCooldownState, schedFar, Part0.initialState]
  norm_num

/-- C1 (counterexample): a state with one life whose step produces a
screen-edge collision, but whose edge latch is already set: the step
leaves `lives = 1` and does not end the game, refuting the claim as
stated. -/
theorem c1_counterexample :
    latchedState.lives = 1 ∧ Main.collisionOccurred latchedState schedFar = true ∧
      ¬ ((Main.tick latchedState schedFar).lives = 0 ∧
          (Main.tick latchedState schedFar).gameEnd = true) := by
  refine ⟨rfl, collisionOccurred_eval_latched, ?_⟩
  have hc : Main.shouldConsumeLife latchedState schedFar = false := by
    simp [Main.shouldConsumeLife, latchedState, Main.initialState]
  have hL : (Main.tick latchedState schedFar).lives = 1 := by
    simp [Main.tick, latchedState, Main.initialState, Main.livesOut, hc]
    rfl
  rintro ⟨h0, -⟩
  rw [hL] at h0
  exact absurd h0 (by norm_num)

/-- C1 (amended): a non-terminal state with `lives = 1` whose step
produces a collision yields `lives = 0` and `ended = true`, provided the
collision latch admits a life loss this step — `inContact = false` in the
edge-latch variant, decremented cooldown at zero in the cooldown
variant. -/
theorem c1_last_life_collision_ends :
    ∀ (sched : List PipeData) (s : Main.State) (s2 : Part0.State),
      (s.gameEnd = false → s.lives = 1 → s.inContact = false →
        Main.collisionOccurred s sched = true →
        (Main.tick s sched).lives = 0 ∧ (Main.tick s sched).gameEnd = true) ∧
      (s2.gameEnd = false → s2.lives = 1 → Part0.nextCooldown s2 ≤ 0 →
        Part0.collisionOccurred s2 sched = true →
        (Part0.tick s2 sched).lives = 0 ∧ (Part0.tick s2 sched).gameEnd = true) := by
  intro sched s s2
  constructor
  · intro hEnd hLives hIn hColl
    have hc : Main.shouldConsumeLife s sched = true := by
      simp [Main.shouldConsumeLife, hIn, hColl, hLives]
    have hl : Main.livesOut s sched = 0 := by
      simp [Main.livesOut, hc, hLives]
    constructor
    · simp [Main.tick, hEnd, hl]
    · simp [Main.tick, hEnd, Main.gameEndOut, hl]
  · intro hEnd hLives hCd hColl
    have hc : Part0.shouldConsumeLife s2 sched = true := by
      simp [Part0.shouldConsumeLife, hCd, hColl, hLives]
    have hl : Part0.livesOut s2 sched = 0 := by
      simp [Part0.livesOut, hc, hLives]
    constructor
    · simp [Part0.tick, hEnd, hl]
    · simp [Part0.tick, hEnd, Part0.gameEndOut, hl]

/-- C1 (witness): at the concrete unlatched and expired-cooldown fixtures
the last-life collision zeroes the lives and ends the game. -/
theorem c1_witness :
    unlatchedState.lives = 1 ∧
      (Main.tick unlatchedState schedFar).lives = 0 ∧
      (Main.tick unlatchedState schedFar).gameEnd = true ∧
      (Part0.tick expiredCooldownState schedFar).lives = 0 ∧
      (Part0.tick expiredCooldownState schedFar).gameEnd = true := by
  have h := c1_last_life_collision_ends schedFar unlatchedState expiredCooldownState
  have h1 := h.1 rfl rfl rfl collisionOccurred_eval_unlatched
  have h2 := h.2 rfl rfl (by norm_num [Part0.nextCooldown, Part0.Constants.TICK_RATE_MS,
    expiredCooldownState, Part0.initialState]) collisionOccurred_eval_expired
  exact ⟨rfl, h1.1, h1.2, h2.1, h2.2⟩

/-- C3 (counterexample): on an ended state the Flap intent still
overwrites fields — the reducer of `part_000` changes `birdVy` (and
`gameStarted`), so an ended state does mutate under a non-Restart
intent. -/
theorem c3_counterexample :
    endedPart0State.gameEnd = true ∧
      Part0.createReducer schedFar endedPart0State Part0.Action.flap ≠ endedPart0State := by
  refine ⟨rfl, ?_⟩
  intro h
  have hv : (Part0.createReducer schedFar endedPart0State Part0.Action.flap).birdVy =
      endedPart0State.birdVy := by rw [h]
  simp [Part0.createReducer, endedPart0State, Part0.initialState,
    Part0.Constants.FLAP_VELOCITY] at hv

/-- C3 (amended): for every ended state, the simulation step and the
advance intent leave the state unchanged; the Flap intent is not guarded
by `ended` and overwrites exactly `gameStarted` (to true) and `birdVy`
(to the flap impulse), in both variants. -/
theorem c3_ended_frame :
    ∀ (sched : List PipeData) (s2 : Part0.State) (s : Main.State),
      s2.gameEnd = true → s.gameEnd = true →
      Part0.createReducer sched s2 Part0.Action.tick = s2 ∧
      Part0.createReducer sched s2 Part0.Action.flap =
        { s2 with gameStarted := true, birdVy := Part0.Constants.FLAP_VELOCITY } ∧
      Main.tick s sched = s ∧
      Main.flapIntent s = { s with gameStarted := true, birdVy := Main.Constants.FLAP_VELOCITY } := by
  intro sched s2 s h2 h
  exact ⟨by simp [Part0.createReducer, Part0.tick, h2], rfl, by simp [Main.tick, h], rfl⟩

/-- C3 (witness): the amended frame property at concrete ended states. -/
theorem c3_witness :
    endedPart0State.gameEnd = true ∧
      Part0.createReducer schedFar endedPart0State Part0.Action.tick = endedPart0State ∧
      Part0.createReducer schedFar endedPart0State Part0.Action.flap =
        { endedPart0State with gameStarted := true, birdVy := Part0.Constants.FLAP_VELOCITY } ∧
      Main.tick endedMainState schedFar = endedMainState ∧
      Main.flapIntent endedMainState =
        { endedMainState with gameStarted := true, birdVy := Main.Constants.FLAP_VELOCITY } := by
  have h := c3_ended_frame schedFar endedPart0State endedMainState rfl rfl
  exact ⟨rfl, h.1, h.2.1, h.2.2.1, h.2.2.2⟩

/-- C2 (counterexample): at the negative seed `-1` the JavaScript truncated
remainder is negative, the rescaled hash falls below `-1`, and the bounce
magnitude exceeds 8. -/
theorem c2_counterexample : ¬ (generateBounceVelocity (-1) ≤ 8) := by
  have h1 : RNG.hash (-1) = -1103502900 := by decide
  have h2 : RNG.scale (-1103502900) = -(4354489447/2147483647 : ℚ) := by
    norm_num [RNG.scale, RNG.m]
  rw [generateBounceVelocity, h1, h2, abs_neg, abs_of_pos (by norm_num)]
  norm_num

/-- C2 (amended): `generateBounceVelocity` is pure and deterministic for
every integer seed, and for every nonnegative seed its output lies in
`[4, 8]`.  (On negative seeds, which the simulation never produces, the
bound fails — see the counterexample.) -/
theorem c2_bounce_deterministic_bounded :
    ∀ seed : ℤ,
      (∀ seed2 : ℤ, seed2 = seed → generateBounceVelocity seed2 = generateBounceVelocity seed) ∧
      (0 ≤ seed → 4 ≤ generateBounceVelocity seed ∧ generateBounceVelocity seed ≤ 8) := by
  intro seed
  refine ⟨fun s2 h => by rw [h], fun hs => ?_⟩
  have hm : (0:ℤ) < RNG.m := by norm_num [RNG.m]
  have hx : 0 ≤ RNG.a * seed + RNG.c := by
    have ha : (0:ℤ) ≤ RNG.a * seed := by
      have : (0:ℤ) ≤ RNG.a := by norm_num [RNG.a]
      exact mul_nonneg this hs
    have hc : (0:ℤ) ≤ RNG.c := by norm_num [RNG.c]
    linarith
  have h1 : RNG.hash seed = (RNG.a * seed + RNG.c) % RNG.m :=
    Int.tmod_eq_emod hx (le_of_lt hm)
  have h2 : 0 ≤ RNG.hash seed := by
    rw [h1]; exact Int.emod_nonneg _ (ne_of_gt hm)
  have h3 : RNG.hash seed < RNG.m := by
    rw [h1]; exact Int.emod_lt_of_pos _ hm
  have hq2 : (0:ℚ) ≤ ((RNG.hash seed : ℤ) : ℚ) := by exact_mod_cast h2
  have hq3 : ((RNG.hash seed : ℤ) : ℚ) ≤ 2147483647 := by
    have : RNG.hash seed ≤ 2147483647 := by
      have := h3; norm_num [RNG.m] at this; omega
    exact_mod_cast this
  have habs : |RNG.scale (RNG.hash seed)| ≤ 1 := by
    rw [abs_le, RNG.scale]
    norm_num [RNG.m]
    constructor
    · apply div_nonneg (by linarith) (by norm_num)
    · rw [div_le_iff₀ (by norm_num : (0:ℚ) < 2147483647)]
      linarith
  have habs0 : 0 ≤ |RNG.scale (RNG.hash seed)| := abs_nonneg _
  rw [generateBounceVelocity]
  constructor
  · nlinarith
  · nlinarith

/-- C2 (witness): the bounce magnitude at the concrete seed 5 lies in
`[4, 8]`. -/
theorem c2_witness :
    (5:ℤ) = 5 ∧ (0:ℤ) ≤ 5 ∧
      4 ≤ generateBounceVelocity 5 ∧ generateBounceVelocity 5 ≤ 8 :=
  ⟨rfl, by norm_num,
    ((c2_bounce_deterministic_bounded 5).2 (by norm_num)).1,
    ((c2_bounce_deterministic_bounded 5).2 (by norm_num)).2⟩

/-- C4: terminal states are absorbing — in both variants a tick from a
state with `gameEnd = true` returns the state unchanged, for every
schedule. -/
theorem c4_terminal_absorbing :
    ∀ (sched : List PipeData) (s : Main.State) (s2 : Part0.State),
      s.gameEnd = true → s2.gameEnd = true →
      Main.tick s sched = s ∧ Part0.tick s2 sched = s2 := by
  intro sched s s2 h h2
  exact ⟨by simp [Main.tick, h], by simp [Part0.tick, h2]⟩

/-- C4 (witness): the absorbing property evaluated at a concrete ended
state and a concrete schedule. -/
theorem c4_witness :
    Main.tick endedMainState schedFar = endedMainState ∧
      Part0.tick endedPart0State schedFar = endedPart0State :=
  c4_terminal_absorbing schedFar endedMainState endedPart0State rfl rfl

/-- C7: the reducer of `part_000` resets to the initial state on a Restart
intent exactly when the game has ended, and leaves the state unchanged
otherwise. -/
theorem c7_restart_policy :
    ∀ (sched : List PipeData) (s : Part0.State),
      (s.gameEnd = true → Part0.createReducer sched s Part0.Action.restart = Part0.initialState) ∧
      (s.gameEnd = false → Part0.createReducer sched s Part0.Action.restart = s) := by
  intro sched s
  constructor
  · intro h; simp [Part0.createReducer, h]
  · intro h; simp [Part0.createReducer, h]

/-- C7 (witness): restart resets a concrete ended state to the initial
state and leaves the initial state itself unchanged. -/
theorem c7_witness :
    Part0.createReducer schedFar endedPart0State Part0.Action.restart = Part0.initialState ∧
      Part0.createReducer schedFar Part0.initialState Part0.Action.restart = Part0.initialState :=
  ⟨(c7_restart_policy schedFar endedPart0State).1 rfl,
    (c7_restart_policy schedFar Part0.initialState).2 rfl⟩

/-- Terminal states are fixed points of the `main.ts` step (helper form). -/
theorem main_tick_absorbing (s : Main.State) (sched : List PipeData)
    (h : s.gameEnd = true) : Main.tick s sched = s := by
  simp [Main.tick, h]

/-- Terminal states are fixed points of the `part_000` step (helper form). -/
theorem p0_tick_absorbing (s : Part0.State) (sched : List PipeData)
    (h : s.gameEnd = true) : Part0.tick s sched = s := by
  simp [Part0.tick, h]

/-- Projection of the lives field of a non-terminal `main.ts` step. -/
theorem main_tick_lives (s : Main.State) (sched : List PipeData)
    (h : s.gameEnd = false) : (Main.tick s sched).lives = Main.livesOut s sched := by
  simp [Main.tick, h]

/-- Projection of the lives field of a non-terminal `part_000` step. -/
theorem p0_tick_lives (s : Part0.State) (sched : List PipeData)
    (h : s.gameEnd = false) : (Part0.tick s sched).lives = Part0.livesOut s sched := by
  simp [Part0.tick, h]

/-- Projection of the cooldown field of a non-terminal `part_000` step. -/
theorem p0_tick_cooldown (s : Part0.State) (sched : List PipeData)
    (h : s.gameEnd = false) :
    (Part0.tick s sched).collisionCooldown = Part0.cooldownOut s sched := by
  simp [Part0.tick, h]

/-- A single `main.ts` step loses at most one life. -/
theorem main_tick_lives_ge (s : Main.State) (sched : List PipeData) :
    s.lives - 1 ≤ (Main.tick s sched).lives := by
  by_cases h : s.gameEnd
  · rw [main_tick_absorbing s sched h]; omega
  · rw [main_tick_lives s sched (by simpa using h), Main.livesOut]
    split <;> omega

/-- While the edge latch is set, a `main.ts` step never loses a life. -/
theorem main_tick_lives_of_inContact (s : Main.State) (sched : List PipeData)
    (h : s.inContact = true) : (Main.tick s sched).lives = s.lives := by
  by_cases hEnd : s.gameEnd
  · rw [main_tick_absorbing s sched hEnd]
  · have hc : Main.shouldConsumeLife s sched = false := by
      simp [Main.shouldConsumeLife, h]
    rw [main_tick_lives s sched (by simpa using hEnd), Main.livesOut, hc]
    simp

/-- After a non-terminal `main.ts` step the latch mirrors the collision
state of that step. -/
theorem main_tick_inContact (s : Main.State) (sched : List PipeData)
    (h : s.gameEnd = false) :
    (Main.tick s sched).inContact = Main.collisionOccurred s sched := by
  simp [Main.tick, h]

/-- Edge-latch episode invariant: across a run of steps that all collide,
at most one life is ever lost — after the first step the latch stays set
(or the game has ended and the state is frozen). -/
theorem main_episode_invariant (sched : List PipeData) (s : Main.State) :
    ∀ n : ℕ, (∀ i, i < n → Main.collisionOccurred (Main.tickSeq sched i s) sched = true) →
      s.lives - 1 ≤ (Main.tickSeq sched n s).lives ∧
      (1 ≤ n → ((Main.tickSeq sched n s).gameEnd = true ∨
                (Main.tickSeq sched n s).inContact = true)) := by
  intro n
  induction n with
  | zero =>
    intro _
    have h0 : Main.tickSeq sched 0 s = s := rfl
    exact ⟨by rw [h0]; omega, by omega⟩
  | succ m ih =>
    intro hcoll
    have ihm := ih (fun i hi => hcoll i (Nat.lt_succ_of_lt hi))
    have hstep : Main.tickSeq sched (m + 1) s =
        Main.tick (Main.tickSeq sched m s) sched := by
      simp [Main.tickSeq, Function.iterate_succ_apply']
    by_cases hEnd : (Main.tickSeq sched m s).gameEnd
    · have hfix := main_tick_absorbing (Main.tickSeq sched m s) sched hEnd
      rw [hstep, hfix]
      exact ⟨ihm.1, fun _ => Or.inl hEnd⟩
    · have hEnd' : (Main.tickSeq sched m s).gameEnd = false := by
        simpa using hEnd
      have hIn : (Main.tick (Main.tickSeq sched m s) sched).inContact = true := by
        rw [main_tick_inContact _ _ hEnd']
        exact hcoll m (Nat.lt_succ_self m)
      constructor
      · rcases Nat.eq_zero_or_pos m with hm | hm
        · subst hm
          have h0 : Main.tickSeq sched 0 s = s := rfl
          rw [hstep, h0]
          exact main_tick_lives_ge s sched
        · have hInm : (Main.tickSeq sched m s).inContact = true := by
            rcases ihm.2 hm with h | h
            · rw [h] at hEnd'; exact absurd hEnd' (by simp)
            · exact h
          rw [hstep, main_tick_lives_of_inContact _ _ hInm]
          exact ihm.1
      · intro _
        rw [hstep]
        exact Or.inr hIn

/-- A single `part_000` step loses at most one life. -/
theorem p0_tick_lives_ge (s : Part0.State) (sched : List PipeData) :
    s.lives - 1 ≤ (Part0.tick s sched).lives := by
  by_cases h : s.gameEnd
  · rw [p0_tick_absorbing s sched h]; omega
  · rw [p0_tick_lives s sched (by simpa using h), Part0.livesOut]
    split <;> omega

/-- While the decremented cooldown is still positive, a `part_000` step
never loses a life. -/
theorem p0_tick_lives_of_cooldown (s : Part0.State) (sched : List PipeData)
    (h : 0 < s.collisionCooldown - Part0.Constants.TICK_RATE_MS) :
    (Part0.tick s sched).lives = s.lives := by
  by_cases hEnd : s.gameEnd
  · rw [p0_tick_absorbing s sched hEnd]
  · have hcd : ¬ (Part0.nextCooldown s ≤ 0) := by
      rw [Part0.nextCooldown]
      intro hle
      have h2 := le_max_right (0:ℚ) (s.collisionCooldown - Part0.Constants.TICK_RATE_MS)
      linarith
    have hc : Part0.shouldConsumeLife s sched = false := by
      simp [Part0.shouldConsumeLife, hcd]
    rw [p0_tick_lives s sched (by simpa using hEnd), Part0.livesOut, hc]
    simp

/-- After a life-consuming step the cooldown is reset to the fixed
600 ms invulnerability window. -/
theorem p0_tick_cooldown_of_consume (s : Part0.State) (sched : List PipeData)
    (hEnd : s.gameEnd = false) (h : Part0.shouldConsumeLife s sched = true) :
    (Part0.tick s sched).collisionCooldown = 600 := by
  rw [p0_tick_cooldown s sched hEnd, Part0.cooldownOut, h]
  simp

/-- Two consecutive `part_000` steps lose at most one life in total: a
loss resets the cooldown to 600 ms, which is still positive after one
16 ms decrement. -/
theorem p0_two_step_lives_ge (s : Part0.State) (sched : List PipeData) :
    s.lives - 1 ≤ (Part0.tick (Part0.tick s sched) sched).lives := by
  by_cases hEnd : s.gameEnd
  · have hfix := p0_tick_absorbing s sched hEnd
    rw [hfix, hfix]; omega
  · have hEnd' : s.gameEnd = false := by simpa using hEnd
    by_cases hc : Part0.shouldConsumeLife s sched = true
    · have h1 : (Part0.tick s sched).lives = s.lives - 1 := by
        rw [p0_tick_lives s sched hEnd', Part0.livesOut, hc]; simp
      by_cases hEnd2 : (Part0.tick s sched).gameEnd
      · rw [p0_tick_absorbing _ sched hEnd2, h1]
      · have hcd : (Part0.tick s sched).collisionCooldown = 600 :=
          p0_tick_cooldown_of_consume s sched hEnd' hc
        have h2 : (Part0.tick (Part0.tick s sched) sched).lives = (Part0.tick s sched).lives := by
          apply p0_tick_lives_of_cooldown
          rw [hcd, Part0.Constants.TICK_RATE_MS]
          norm_num
        rw [h2, h1]
    · have h1 : (Part0.tick s sched).lives = s.lives := by
        simp only [Bool.not_eq_true] at hc
        rw [p0_tick_lives s sched hEnd', Part0.livesOut, hc]
        simp
      have h2 := p0_tick_lives_ge (Part0.tick s sched) sched
      rw [h1] at h2
      exact h2

/-- Evaluation: one tick from the latched bottom-contact fixture. -/
theorem main_tick_latched_eval : Main.tick latchedState schedFar = latchedContact2State := by
  simp [Main.tick, latchedState, latchedContact2State, Main.initialState, Main.livesOut,
    Main.shouldConsumeLife, Main.birdVyOut, Main.yClamped, Main.yNew, Main.vyNew,
    Main.topBound, Main.botBound, Main.updatedPipes, Main.pipeFold, Main.movedPipes,
    Main.spawnResult, Main.spawnLoop, Main.ticksToSec, Main.Constants.TICK_RATE_MS,
    Main.Constants.GRAVITY, Main.gameEndOut, Main.collisionOccurred, Main.pipesHit,
    Main.scoreInc, Main.screenHitTop, Main.screenHitBot, Birb.HEIGHT,
    Viewport.CANVAS_HEIGHT, schedFar]
  norm_num

/-- Evaluation: the state one tick after the latched fixture still
collides with the bottom screen edge. -/
theorem collisionOccurred_eval_latched2 :
    Main.collisionOccurred latchedContact2State schedFar = true := by
  simp [Main.collisionOccurred, Main.pipesHit, Main.pipeFold, Main.movedPipes,
    Main.spawnResult, Main.spawnLoop, Main.ticksToSec, Main.Constants.TICK_RATE_MS,
    Main.screenHitTop, Main.screenHitBot, Main.yNew, Main.vyNew, Main.topBound, Main.botBound,
    Main.Constants.GRAVITY, Birb.HEIGHT, Viewport.CANVAS_HEIGHT, latchedContact2State,
    schedFar]
  norm_num

/-- C5: at most one life is lost per contact episode.  In the edge-latch
variant a set latch suppresses any loss, and across any run of
consecutively colliding steps lives drop by at most one; in the cooldown
variant no life is lost while the decremented cooldown is still positive,
and any two consecutive steps lose at most one life in total. -/
theorem c5_single_loss_per_contact :
    ∀ (sched : List PipeData) (s : Main.State) (s2 : Part0.State),
      (s.inContact = true → (Main.tick s sched).lives = s.lives) ∧
      (∀ n : ℕ, (∀ i, i < n → Main.collisionOccurred (Main.tickSeq sched i s) sched = true) →
        s.lives - 1 ≤ (Main.tickSeq sched n s).lives) ∧
      (0 < s2.collisionCooldown - Part0.Constants.TICK_RATE_MS →
        (Part0.tick s2 sched).lives = s2.lives) ∧
      s2.lives - 1 ≤ (Part0.tick (Part0.tick s2 sched) sched).lives := by
  intro sched s s2
  exact ⟨main_tick_lives_of_inContact s sched,
    fun n h => (main_episode_invariant sched s n h).1,
    p0_tick_lives_of_cooldown s2 sched,
    p0_two_step_lives_ge s2 sched⟩

/-- C5 (witness): the latched fixture collides on two consecutive steps
yet keeps its single life; the cooling fixture collides during its
invulnerability window and keeps both lives. -/
theorem c5_witness :
    (Main.tick latchedState schedFar).lives = latchedState.lives ∧
      latchedState.lives - 1 ≤ (Main.tickSeq schedFar 2 latchedState).lives ∧
      (Part0.tick coolingState schedFar).lives = coolingState.lives ∧
      coolingState.lives - 1 ≤ (Part0.tick (Part0.tick coolingState schedFar) schedFar).lives := by
  have h := c5_single_loss_per_contact schedFar latchedState coolingState
  refine ⟨h.1 rfl, h.2.1 2 ?_, h.2.2.1 (by norm_num [coolingState, Part0.initialState,
    Part0.Constants.TICK_RATE_MS]), h.2.2.2⟩
  intro i hi
  interval_cases i
  · exact collisionOccurred_eval_latched
  · have h1 : Main.tickSeq schedFar 1 latchedState = latchedContact2State := by
      have h0 : Main.tickSeq schedFar 1 latchedState = Main.tick latchedState schedFar := rfl
      rw [h0, main_tick_latched_eval]
    rw [h1]
    exact collisionOccurred_eval_latched2

/-- Spawn loop only moves the schedule pointer forward (`main.ts`). -/
theorem main_spawnLoop_mono (sched : List PipeData) (tSec : ℚ) :
    ∀ (next : ℕ) (acc : List Main.LivePipe),
      next ≤ (Main.spawnLoop sched tSec next acc).1 := by
  intro next acc
  induction next, acc using Main.spawnLoop.induct sched tSec with
  | case1 next acc h hle ih =>
    rw [Main.spawnLoop]
    simp only [dif_pos h, if_pos hle]
    omega
  | case2 next acc h hle =>
    rw [Main.spawnLoop]
    simp only [dif_pos h, if_neg hle]
    omega
  | case3 next acc h =>
    rw [Main.spawnLoop]
    simp only [dif_neg h]
    omega

/-- Spawn loop never moves the pointer beyond the schedule (`main.ts`). -/
theorem main_spawnLoop_le_length (sched : List PipeData) (tSec : ℚ) :
    ∀ (next : ℕ) (acc : List Main.LivePipe), next ≤ sched.length →
      (Main.spawnLoop sched tSec next acc).1 ≤ sched.length := by
  intro next acc
  induction next, acc using Main.spawnLoop.induct sched tSec with
  | case1 next acc h hle ih =>
    intro _
    rw [Main.spawnLoop]
    simp only [dif_pos h, if_pos hle]
    exact ih (by omega)
  | case2 next acc h hle =>
    intro hn
    rw [Main.spawnLoop]
    simp only [dif_pos h, if_neg hle]
    exact hn
  | case3 next acc h =>
    intro hn
    rw [Main.spawnLoop]
    simp only [dif_neg h]
    exact hn

/-- Spawn loop only moves the schedule pointer forward (`part_000`). -/
theorem p0_spawnLoop_mono (sched : List PipeData) (tSec : ℚ) :
    ∀ (next : ℕ) (acc : List Part0.LivePipe),
      next ≤ (Part0.spawnLoop sched tSec next acc).1 := by
  intro next acc
  induction next, acc using Part0.spawnLoop.induct sched tSec with
  | case1 next acc h hle ih =>
    rw [Part0.spawnLoop]
    simp only [dif_pos h, if_pos hle]
    omega
  | case2 next acc h hle =>
    rw [Part0.spawnLoop]
    simp only [dif_pos h, if_neg hle]
    omega
  | case3 next acc h =>
    rw [Part0.spawnLoop]
    simp only [dif_neg h]
    omega

/-- Spawn loop never moves the pointer beyond the schedule (`part_000`). -/
theorem p0_spawnLoop_le_length (sched : List PipeData) (tSec : ℚ) :
    ∀ (next : ℕ) (acc : List Part0.LivePipe), next ≤ sched.length →
      (Part0.spawnLoop sched tSec next acc).1 ≤ sched.length := by
  intro next acc
  induction next, acc using Part0.spawnLoop.induct sched tSec with
  | case1 next acc h hle ih =>
    intro _
    rw [Part0.spawnLoop]
    simp only [dif_pos h, if_pos hle]
    exact ih (by omega)
  | case2 next acc h hle =>
    intro hn
    rw [Part0.spawnLoop]
    simp only [dif_pos h, if_neg hle]
    exact hn
  | case3 next acc h =>
    intro hn
    rw [Part0.spawnLoop]
    simp only [dif_neg h]
    exact hn

/-- One `main.ts` step never decreases the schedule pointer. -/
theorem main_tick_nextPipeIdx_mono (s : Main.State) (sched : List PipeData) :
    s.nextPipeIdx ≤ (Main.tick s sched).nextPipeIdx := by
  by_cases h : s.gameEnd
  · rw [main_tick_absorbing s sched h]
  · have hm := main_spawnLoop_mono sched (Main.ticksToSec (s.gameTime + 1)) s.nextPipeIdx s.pipes
    simpa [Main.tick, h, Main.spawnResult] using hm

/-- One `main.ts` step keeps the schedule pointer within the schedule. -/
theorem main_tick_nextPipeIdx_le (s : Main.State) (sched : List PipeData)
    (h : s.nextPipeIdx ≤ sched.length) :
    (Main.tick s sched).nextPipeIdx ≤ sched.length := by
  by_cases hEnd : s.gameEnd
  · rw [main_tick_absorbing s sched hEnd]; exact h
  · have hb := main_spawnLoop_le_length sched (Main.ticksToSec (s.gameTime + 1))
      s.nextPipeIdx s.pipes h
    simpa [Main.tick, hEnd, Main.spawnResult] using hb

/-- The schedule pointer is non-decreasing along any `main.ts` run. -/
theorem main_tickSeq_nextPipeIdx_mono (sched : List PipeData) (s : Main.State)
    (n m : ℕ) (hnm : n ≤ m) :
    (Main.tickSeq sched n s).nextPipeIdx ≤ (Main.tickSeq sched m s).nextPipeIdx := by
  induction m, hnm using Nat.le_induction with
  | base => exact le_refl _
  | succ m hm ih =>
    have hstep : Main.tickSeq sched (m + 1) s = Main.tick (Main.tickSeq sched m s) sched := by
      simp [Main.tickSeq, Function.iterate_succ_apply']
    rw [hstep]
    exact le_trans ih (main_tick_nextPipeIdx_mono _ sched)

/-- The schedule pointer stays within the schedule along any `main.ts`
run. -/
theorem main_tickSeq_nextPipeIdx_le (sched : List PipeData) (s : Main.State)
    (h : s.nextPipeIdx ≤ sched.length) :
    ∀ n, (Main.tickSeq sched n s).nextPipeIdx ≤ sched.length := by
  intro n
  induction n with
  | zero => exact h
  | succ m ih =>
    have hstep : Main.tickSeq sched (m + 1) s = Main.tick (Main.tickSeq sched m s) sched := by
      simp [Main.tickSeq, Function.iterate_succ_apply']
    rw [hstep]
    exact main_tick_nextPipeIdx_le _ sched ih

/-- One `part_000` step never decreases the schedule pointer. -/
theorem p0_tick_nextPipeIdx_mono (s : Part0.State) (sched : List PipeData) :
    s.nextPipeIdx ≤ (Part0.tick s sched).nextPipeIdx := by
  by_cases h : s.gameEnd
  · rw [p0_tick_absorbing s sched h]
  · have hm := p0_spawnLoop_mono sched (Part0.ticksToSec (s.gameTime + 1)) s.nextPipeIdx s.pipes
    simpa [Part0.tick, h, Part0.spawnResult] using hm

/-- One `part_000` step keeps the schedule pointer within the schedule. -/
theorem p0_tick_nextPipeIdx_le (s : Part0.State) (sched : List PipeData)
    (h : s.nextPipeIdx ≤ sched.length) :
    (Part0.tick s sched).nextPipeIdx ≤ sched.length := by
  by_cases hEnd : s.gameEnd
  · rw [p0_tick_absorbing s sched hEnd]; exact h
  · have hb := p0_spawnLoop_le_length sched (Part0.ticksToSec (s.gameTime + 1))
      s.nextPipeIdx s.pipes h
    simpa [Part0.tick, hEnd, Part0.spawnResult] using hb

/-- The schedule pointer is non-decreasing along any `part_000` run. -/
theorem p0_tickSeq_nextPipeIdx_mono (sched : List PipeData) (s : Part0.State)
    (n m : ℕ) (hnm : n ≤ m) :
    (Part0.tickSeq sched n s).nextPipeIdx ≤ (Part0.tickSeq sched m s).nextPipeIdx := by
  induction m, hnm using Nat.le_induction with
  | base => exact le_refl _
  | succ m hm ih =>
    have hstep : Part0.tickSeq sched (m + 1) s = Part0.tick (Part0.tickSeq sched m s) sched := by
      simp [Part0.tickSeq, Function.iterate_succ_apply']
    rw [hstep]
    exact le_trans ih (p0_tick_nextPipeIdx_mono _ sched)

/-- The schedule pointer stays within the schedule along any `part_000`
run. -/
theorem p0_tickSeq_nextPipeIdx_le (sched : List PipeData) (s : Part0.State)
    (h : s.nextPipeIdx ≤ sched.length) :
    ∀ n, (Part0.tickSeq sched n s).nextPipeIdx ≤ sched.length := by
  intro n
  induction n with
  | zero => exact h
  | succ m ih =>
    have hstep : Part0.tickSeq sched (m + 1) s = Part0.tick (Part0.tickSeq sched m s) sched := by
      simp [Part0.tickSeq, Function.iterate_succ_apply']
    rw [hstep]
    exact p0_tick_nextPipeIdx_le _ sched ih

/-- C8: in both variants the schedule pointer is non-decreasing across
any sequence of simulation steps, and it never exceeds the schedule
length when it starts within it. -/
theorem c8_schedule_pointer :
    ∀ (sched : List PipeData) (s : Main.State) (s2 : Part0.State),
      (∀ n m : ℕ, n ≤ m →
        (Main.tickSeq sched n s).nextPipeIdx ≤ (Main.tickSeq sched m s).nextPipeIdx) ∧
      (s.nextPipeIdx ≤ sched.length →
        ∀ n, (Main.tickSeq sched n s).nextPipeIdx ≤ sched.length) ∧
      (∀ n m : ℕ, n ≤ m →
        (Part0.tickSeq sched n s2).nextPipeIdx ≤ (Part0.tickSeq sched m s2).nextPipeIdx) ∧
      (s2.nextPipeIdx ≤ sched.length →
        ∀ n, (Part0.tickSeq sched n s2).nextPipeIdx ≤ sched.length) := by
  intro sched s s2
  exact ⟨main_tickSeq_nextPipeIdx_mono sched s,
    main_tickSeq_nextPipeIdx_le sched s,
    p0_tickSeq_nextPipeIdx_mono sched s2,
    p0_tickSeq_nextPipeIdx_le sched s2⟩

/-- C8 (witness): the pointer facts evaluated for a three-step run from
the initial state of each variant. -/
theorem c8_witness :
    (Main.tickSeq schedFar 1 Main.initialState).nextPipeIdx ≤
        (Main.tickSeq schedFar 3 Main.initialState).nextPipeIdx ∧
      (Main.tickSeq schedFar 3 Main.initialState).nextPipeIdx ≤ schedFar.length ∧
      (Part0.tickSeq schedFar 1 Part0.initialState).nextPipeIdx ≤
        (Part0.tickSeq schedFar 3 Part0.initialState).nextPipeIdx ∧
      (Part0.tickSeq schedFar 3 Part0.initialState).nextPipeIdx ≤ schedFar.length := by
  have h := c8_schedule_pointer schedFar Main.initialState Part0.initialState
  exact ⟨h.1 1 3 (by norm_num), h.2.1 (by simp [Main.initialState, schedFar]) 3,
    h.2.2.1 1 3 (by norm_num), h.2.2.2 (by simp [Part0.initialState, schedFar]) 3⟩

/-- Distributing a shared overlap test over two gap tests. -/
theorem bool_or_merge (h ox a b : Bool) :
    (h || (ox && a) || (ox && b)) = (h || (ox && (a || b))) := by
  cases h <;> cases ox <;> cases a <;> cases b <;> rfl

/-- The pipe fold of `main.ts` decomposed: it appends the per-pipe flag
updates, accumulates any per-pipe hit, and counts one point per pipe whose
pass condition holds and which is not marked touched this step. -/
theorem main_pipeFold_eq (T B : ℚ) :
    ∀ (ps : List Main.LivePipe) (l : List Main.LivePipe) (h : Bool) (c : ℤ),
      ps.foldl (Main.pipeFoldStep T B) (l, h, c) =
        (l ++ ps.map (Main.updPipe T B),
         h || ps.any (Main.hitPipeB T B),
         c + (ps.countP
           (fun p => Main.justPassedB p && !(p.touched || Main.hitPipeB T B p)) : ℤ)) := by
  intro ps
  induction ps with
  | nil =>
    intro l h c
    simp only [List.foldl_nil, List.map_nil, List.append_nil, List.any_nil, Bool.or_false,
      List.countP_nil, Nat.cast_zero, add_zero]
  | cons p ps ih =>
    intro l h c
    rw [List.foldl_cons]
    have hstep : Main.pipeFoldStep T B (l, h, c) p =
        (l ++ [Main.updPipe T B p], h || Main.hitPipeB T B p,
         c + if Main.justPassedB p && !(p.touched || Main.hitPipeB T B p) then 1 else 0) := rfl
    rw [hstep, ih]
    simp only [Prod.mk.injEq]
    refine ⟨?_, ?_, ?_⟩
    · simp only [List.map_cons, List.append_assoc, List.singleton_append]
    · rw [List.any_cons, Bool.or_assoc]
    · rw [List.countP_cons]
      cases hpred : (Main.justPassedB p && !(p.touched || Main.hitPipeB T B p))
      · rw [if_neg (by simp [hpred]), if_neg (by simp [hpred])]
        push_cast
        ring
      · rw [if_pos (by simp [hpred]), if_pos (by simp [hpred])]
        push_cast
        ring

/-- A pipe passed this step cannot also overlap the bird this step, so the
award condition reduces to the stored `touched` flag. -/
theorem main_award_eq (T B : ℚ) (p : Main.LivePipe) :
    (Main.justPassedB p && !(p.touched || Main.hitPipeB T B p)) =
      (Main.justPassedB p && !p.touched) := by
  cases hjp : Main.justPassedB p
  · simp
  · have hx : p.x + Main.Constants.PIPE_WIDTH < Main.birdL := by
      have h2 := hjp
      simp [Main.justPassedB] at h2
      exact h2.2
    have hh : Main.hitPipeB T B p = false := by
      simp [Main.hitPipeB]
      intro h1 h2
      linarith
    simp [hh]

/-- The pipe fold of `part_000` decomposed: flag updates, any per-pipe
hit, and one point per first pass. -/
theorem p0_pipeFold_eq (T B : ℚ) :
    ∀ (ps : List Part0.LivePipe) (l : List Part0.LivePipe) (h : Bool) (c : ℤ),
      ps.foldl (Part0.pipeFoldStep T B) (l, h, c) =
        (l ++ ps.map Part0.updPipe,
         h || ps.any (Part0.hitPipeB T B),
         c + (ps.countP Part0.justPassedB : ℤ)) := by
  intro ps
  induction ps with
  | nil =>
    intro l h c
    simp only [List.foldl_nil, List.map_nil, List.append_nil, List.any_nil, Bool.or_false,
      List.countP_nil, Nat.cast_zero, add_zero]
  | cons p ps ih =>
    intro l h c
    rw [List.foldl_cons]
    have hstep : Part0.pipeFoldStep T B (l, h, c) p =
        (l ++ [Part0.updPipe p],
         h ||
            ((decide (p.x < Part0.birdR) &&
                decide (Part0.birdL < p.x + Part0.Constants.PIPE_WIDTH)) &&
              decide (T < p.gapYpx - p.gapHpx / 2)) ||
            ((decide (p.x < Part0.birdR) &&
                decide (Part0.birdL < p.x + Part0.Constants.PIPE_WIDTH)) &&
              decide (p.gapYpx + p.gapHpx / 2 < B)),
         c + if Part0.justPassedB p then 1 else 0) := rfl
    rw [hstep, ih]
    have hb : (h ||
            ((decide (p.x < Part0.birdR) &&
                decide (Part0.birdL < p.x + Part0.Constants.PIPE_WIDTH)) &&
              decide (T < p.gapYpx - p.gapHpx / 2)) ||
            ((decide (p.x < Part0.birdR) &&
                decide (Part0.birdL < p.x + Part0.Constants.PIPE_WIDTH)) &&
              decide (p.gapYpx + p.gapHpx / 2 < B))) = (h || Part0.hitPipeB T B p) :=
      bool_or_merge h _ _ _
    rw [hb]
    simp only [Prod.mk.injEq]
    refine ⟨?_, ?_, ?_⟩
    · simp only [List.map_cons, List.append_assoc, List.singleton_append]
    · rw [List.any_cons, Bool.or_assoc]
    · rw [List.countP_cons]
      cases hpred : Part0.justPassedB p
      · rw [if_neg (by simp [hpred]), if_neg (by simp [hpred])]
        push_cast
        ring
      · rw [if_pos (by simp [hpred]), if_pos (by simp [hpred])]
        push_cast
        ring

/-- Projection of the score field of a non-terminal `main.ts` step. -/
theorem main_tick_score (s : Main.State) (sched : List PipeData)
    (h : s.gameEnd = false) :
    (Main.tick s sched).score = s.score + Main.scoreInc s sched := by
  simp [Main.tick, h]

/-- Projection of the pipes field of a non-terminal `main.ts` step. -/
theorem main_tick_pipes (s : Main.State) (sched : List PipeData)
    (h : s.gameEnd = false) :
    (Main.tick s sched).pipes = Main.updatedPipes s sched := by
  simp [Main.tick, h]

/-- Projection of the score field of a non-terminal `part_000` step. -/
theorem p0_tick_score (s : Part0.State) (sched : List PipeData)
    (h : s.gameEnd = false) :
    (Part0.tick s sched).score = s.score + Part0.scoreInc s sched := by
  simp [Part0.tick, h]

/-- Projection of the pipes field of a non-terminal `part_000` step. -/
theorem p0_tick_pipes (s : Part0.State) (sched : List PipeData)
    (h : s.gameEnd = false) :
    (Part0.tick s sched).pipes = Part0.updatedPipes s sched := by
  simp [Part0.tick, h]

/-- C6: on every non-terminal step the score rises by exactly the number
of live pipes whose `passed` flag transitions from false to true this step
(bird left edge strictly beyond the pipe right edge), where the `main.ts`
variant additionally requires the pipe never to have been touched, and the
`part_000` variant awards on every first pass; the returned pipe list
carries exactly the corresponding flag updates. -/
theorem c6_scoring :
    ∀ (sched : List PipeData) (s : Main.State) (s2 : Part0.State),
      s.gameEnd = false → s2.gameEnd = false →
      ((Main.tick s sched).score =
          s.score + ((Main.movedPipes s sched).countP
            (fun p => Main.justPassedB p && !p.touched) : ℤ) ∧
        (Main.tick s sched).pipes =
          (Main.movedPipes s sched).map (Main.updPipe (Main.birdT s) (Main.birdB s))) ∧
      ((Part0.tick s2 sched).score =
          s2.score + ((Part0.movedPipes s2 sched).countP Part0.justPassedB : ℤ) ∧
        (Part0.tick s2 sched).pipes =
          (Part0.movedPipes s2 sched).map Part0.updPipe) := by
  intro sched s s2 h h2
  have hfold := main_pipeFold_eq (Main.birdT s) (Main.birdB s) (Main.movedPipes s sched) [] false 0
  have hcong : (Main.movedPipes s sched).countP
      (fun p => Main.justPassedB p &&
        !(p.touched || Main.hitPipeB (Main.birdT s) (Main.birdB s) p)) =
      (Main.movedPipes s sched).countP (fun p => Main.justPassedB p && !p.touched) := by
    apply List.countP_congr
    intro p _
    rw [main_award_eq]
  have hfold2 := p0_pipeFold_eq (Part0.birdT s2) (Part0.birdB s2) (Part0.movedPipes s2 sched) [] false 0
  refine ⟨⟨?_, ?_⟩, ?_, ?_⟩
  · have hsc : Main.scoreInc s sched = 0 + ((Main.movedPipes s sched).countP
        (fun p => Main.justPassedB p &&
          !(p.touched || Main.hitPipeB (Main.birdT s) (Main.birdB s) p)) : ℤ) := by
      rw [Main.scoreInc, Main.pipeFold, hfold]
    rw [main_tick_score s sched h, hsc, hcong]
    ring
  · have hup : Main.updatedPipes s sched =
        [] ++ (Main.movedPipes s sched).map (Main.updPipe (Main.birdT s) (Main.birdB s)) := by
      rw [Main.updatedPipes, Main.pipeFold, hfold]
    rw [main_tick_pipes s sched h, hup, List.nil_append]
  · have hsc : Part0.scoreInc s2 sched =
        0 + ((Part0.movedPipes s2 sched).countP Part0.justPassedB : ℤ) := by
      rw [Part0.scoreInc, Part0.pipeFold, hfold2]
    rw [p0_tick_score s2 sched h2, hsc]
    ring
  · have hup : Part0.updatedPipes s2 sched =
        [] ++ (Part0.movedPipes s2 sched).map Part0.updPipe := by
      rw [Part0.updatedPipes, Part0.pipeFold, hfold2]
    rw [p0_tick_pipes s2 sched h2, hup, List.nil_append]

/-- C6 (witness): a concrete pipe crossed this step scores one point in
each variant. -/
theorem c6_witness :
    (Main.tick scoringState schedFar).score = 1 ∧
      (Part0.tick scoringStateP0 schedFar).score = 1 := by
  have h := c6_scoring schedFar scoringState scoringStateP0 rfl rfl
  have e1 : ((Main.movedPipes scoringState schedFar).countP
      (fun p => Main.justPassedB p && !p.touched)) = 1 := by
    simp [Main.movedPipes, Main.spawnResult, Main.spawnLoop, Main.ticksToSec,
      Main.Constants.TICK_RATE_MS, Main.Constants.PIPE_SPEED, Main.Constants.PIPE_WIDTH,
      Main.justPassedB, Main.birdL, Main.birdX, Birb.WIDTH, Viewport.CANVAS_WIDTH,
      scoringState, Main.initialState, schedFar, List.countP]
    norm_num [List.countP.go, Main.justPassedB]
  have e2 : ((Part0.movedPipes scoringStateP0 schedFar).countP Part0.justPassedB) = 1 := by
    simp [Part0.movedPipes, Part0.spawnResult, Part0.spawnLoop, Part0.ticksToSec,
      Part0.Constants.TICK_RATE_MS, Part0.Constants.PIPE_SPEED, Part0.Constants.PIPE_WIDTH,
      Part0.justPassedB, Part0.birdL, Part0.birdX, Birb.WIDTH, Viewport.CANVAS_WIDTH,
      scoringStateP0, Part0.initialState, schedFar, List.countP]
    norm_num [List.countP.go, Part0.justPassedB, Part0.birdL, Part0.birdX, Birb.WIDTH,
      Viewport.CANVAS_WIDTH, Part0.Constants.PIPE_WIDTH]
  constructor
  · rw [h.1.1, e1]
    norm_num [scoringState, Main.initialState]
  · rw [h.2.1, e2]
    norm_num [scoringStateP0, Part0.initialState]

/-- The clamped position always lies within the screen bounds (`main.ts`). -/
theorem main_yClamped_mem (s : Main.State) :
    Main.topBound ≤ Main.yClamped s ∧ Main.yClamped s ≤ Main.botBound := by
  constructor
  · exact le_max_left _ _
  · apply max_le
    · norm_num [Main.topBound, Main.botBound, Birb.HEIGHT, Viewport.CANVAS_HEIGHT]
    · exact min_le_left _ _

/-- The clamped position always lies within the screen bounds (`part_000`). -/
theorem p0_yClamped_mem (s : Part0.State) :
    Part0.topBound ≤ Part0.yClamped s ∧ Part0.yClamped s ≤ Part0.botBound := by
  constructor
  · exact le_max_left _ _
  · apply max_le
    · norm_num [Part0.topBound, Part0.botBound, Birb.HEIGHT, Viewport.CANVAS_HEIGHT]
    · exact min_le_left _ _

/-- Projection of the bird position of a non-terminal `main.ts` step. -/
theorem main_tick_birdY (s : Main.State) (sched : List PipeData)
    (h : s.gameEnd = false) : (Main.tick s sched).birdY = Main.yClamped s := by
  simp [Main.tick, h]

/-- Projection of the bird position of a non-terminal `part_000` step. -/
theorem p0_tick_birdY (s : Part0.State) (sched : List PipeData)
    (h : s.gameEnd = false) : (Part0.tick s sched).birdY = Part0.yClamped s := by
  simp [Part0.tick, h]

/-- Projection of the bird velocity of a non-terminal `main.ts` step. -/
theorem main_tick_birdVy (s : Main.State) (sched : List PipeData)
    (h : s.gameEnd = false) : (Main.tick s sched).birdVy = Main.birdVyOut s sched := by
  simp [Main.tick, h]

/-- Projection of the bird velocity of a non-terminal `part_000` step. -/
theorem p0_tick_birdVy (s : Part0.State) (sched : List PipeData)
    (h : s.gameEnd = false) : (Part0.tick s sched).birdVy = Part0.birdVyOut s sched := by
  simp [Part0.tick, h]

/-- Every reducer action preserves the position bounds. -/
theorem p0_reducer_birdY_bound (sched : List PipeData) (s : Part0.State) (a : Part0.Action)
    (h : Part0.topBound ≤ s.birdY ∧ s.birdY ≤ Part0.botBound) :
    Part0.topBound ≤ (Part0.createReducer sched s a).birdY ∧
      (Part0.createReducer sched s a).birdY ≤ Part0.botBound := by
  cases a with
  | tick =>
    show Part0.topBound ≤ (Part0.tick s sched).birdY ∧ (Part0.tick s sched).birdY ≤ Part0.botBound
    by_cases hEnd : s.gameEnd
    · rw [p0_tick_absorbing s sched hEnd]; exact h
    · rw [p0_tick_birdY s sched (by simpa using hEnd)]
      exact p0_yClamped_mem s
  | flap => exact h
  | restart =>
    by_cases hEnd : s.gameEnd
    · have hred : Part0.createReducer sched s Part0.Action.restart = Part0.initialState := by
        simp [Part0.createReducer, hEnd]
      rw [hred]
      norm_num [Part0.initialState, Part0.topBound, Part0.botBound, Birb.HEIGHT,
        Viewport.CANVAS_HEIGHT]
    · have hred : Part0.createReducer sched s Part0.Action.restart = s := by
        simp [Part0.createReducer, hEnd]
      rw [hred]
      exact h

/-- Any intent sequence from the initial state keeps the bird position
within the screen bounds. -/
theorem p0_run_birdY_bound (sched : List PipeData) (acts : List Part0.Action) :
    Part0.topBound ≤ (Part0.run sched acts).birdY ∧
      (Part0.run sched acts).birdY ≤ Part0.botBound := by
  have H : ∀ (l : List Part0.Action) (s : Part0.State),
      Part0.topBound ≤ s.birdY ∧ s.birdY ≤ Part0.botBound →
      Part0.topBound ≤ (l.foldl (Part0.createReducer sched) s).birdY ∧
        (l.foldl (Part0.createReducer sched) s).birdY ≤ Part0.botBound := by
    intro l
    induction l with
    | nil => intro s hs; exact hs
    | cons a l ih =>
      intro s hs
      rw [List.foldl_cons]
      exact ih _ (p0_reducer_birdY_bound sched s a hs)
  apply H
  norm_num [Part0.initialState, Part0.topBound, Part0.botBound, Birb.HEIGHT,
    Viewport.CANVAS_HEIGHT]

/-- C9: every state reachable from the initial state by reducer
applications has its bird position in the closed band between the half
bird height and the viewport height minus the half bird height; on a
non-terminal step whose unclamped integrated position violates a bound,
the new position sits exactly at that bound (both variants); and the
stored velocity is not clamped: whenever no life is consumed it is
exactly the old velocity plus gravity, even while the position is
pinned. -/
theorem c9_bounded_position :
    ∀ (sched : List PipeData) (acts : List Part0.Action) (s : Main.State) (s2 : Part0.State),
      (Part0.topBound ≤ (Part0.run sched acts).birdY ∧
        (Part0.run sched acts).birdY ≤ Part0.botBound) ∧
      (s.gameEnd = false →
        (Main.yNew s < Main.topBound → (Main.tick s sched).birdY = Main.topBound) ∧
        (Main.botBound < Main.yNew s → (Main.tick s sched).birdY = Main.botBound) ∧
        (Main.shouldConsumeLife s sched = false →
          (Main.tick s sched).birdVy = s.birdVy + Main.Constants.GRAVITY)) ∧
      (s2.gameEnd = false →
        (Part0.yNew s2 < Part0.topBound → (Part0.tick s2 sched).birdY = Part0.topBound) ∧
        (Part0.botBound < Part0.yNew s2 → (Part0.tick s2 sched).birdY = Part0.botBound) ∧
        (Part0.shouldConsumeLife s2 sched = false →
          (Part0.tick s2 sched).birdVy = s2.birdVy + Part0.Constants.GRAVITY)) := by
  intro sched acts s s2
  refine ⟨p0_run_birdY_bound sched acts, ?_, ?_⟩
  · intro hEnd
    refine ⟨?_, ?_, ?_⟩
    · intro hlt
      rw [main_tick_birdY s sched hEnd, Main.yClamped]
      rw [min_eq_right (by norm_num [Main.topBound, Main.botBound, Birb.HEIGHT,
        Viewport.CANVAS_HEIGHT] at hlt ⊢; linarith)]
      exact max_eq_left (le_of_lt hlt)
    · intro hgt
      rw [main_tick_birdY s sched hEnd, Main.yClamped]
      rw [min_eq_left (le_of_lt hgt)]
      exact max_eq_right (by norm_num [Main.topBound, Main.botBound, Birb.HEIGHT,
        Viewport.CANVAS_HEIGHT])
    · intro hc
      rw [main_tick_birdVy s sched hEnd, Main.birdVyOut, hc]
      simp [Main.vyNew]
  · intro hEnd
    refine ⟨?_, ?_, ?_⟩
    · intro hlt
      rw [p0_tick_birdY s2 sched hEnd, Part0.yClamped]
      rw [min_eq_right (by norm_num [Part0.topBound, Part0.botBound, Birb.HEIGHT,
        Viewport.CANVAS_HEIGHT] at hlt ⊢; linarith)]
      exact max_eq_left (le_of_lt hlt)
    · intro hgt
      rw [p0_tick_birdY s2 sched hEnd, Part0.yClamped]
      rw [min_eq_left (le_of_lt hgt)]
      exact max_eq_right (by norm_num [Part0.topBound, Part0.botBound, Birb.HEIGHT,
        Viewport.CANVAS_HEIGHT])
    · intro hc
      rw [p0_tick_birdVy s2 sched hEnd, Part0.birdVyOut, hc]
      simp [Part0.vyNew]

/-- C9 (witness): the concrete bottom-contact fixtures pin the position
exactly at the bottom bound while the velocity keeps integrating
gravity, and a one-tick run from the initial state stays in bounds. -/
theorem c9_witness :
    Part0.topBound ≤ (Part0.run schedFar [Part0.Action.tick]).birdY ∧
      (Part0.run schedFar [Part0.Action.tick]).birdY ≤ Part0.botBound ∧
      (Main.tick latchedState schedFar).birdY = Main.botBound ∧
      (Main.tick latchedState schedFar).birdVy = latchedState.birdVy + Main.Constants.GRAVITY ∧
      (Part0.tick coolingState schedFar).birdY = Part0.botBound ∧
      (Part0.tick coolingState schedFar).birdVy = coolingState.birdVy + Part0.Constants.GRAVITY := by
  have h := c9_bounded_position schedFar [Part0.Action.tick] latchedState coolingState
  have hm := h.2.1 rfl
  have hp := h.2.2 rfl
  have hyM : Main.botBound < Main.yNew latchedState := by
    norm_num [Main.yNew, Main.vyNew, latchedState, Main.initialState, Main.Constants.GRAVITY,
      Main.botBound, Birb.HEIGHT, Viewport.CANVAS_HEIGHT]
  have hyP : Part0.botBound < Part0.yNew coolingState := by
    norm_num [Part0.yNew, Part0.vyNew, coolingState, Part0.initialState, Part0.Constants.GRAVITY,
      Part0.botBound, Birb.HEIGHT, Viewport.CANVAS_HEIGHT]
  have hcM : Main.shouldConsumeLife latchedState schedFar = false := by
    simp [Main.shouldConsumeLife, latchedState, Main.initialState]
  have hcP : Part0.shouldConsumeLife coolingState schedFar = false := by
    simp [Part0.shouldConsumeLife, Part0.nextCooldown, coolingState, Part0.initialState,
      Part0.Constants.TICK_RATE_MS]
    norm_num
  exact ⟨h.1.1, h.1.2, hm.2.1 hyM, hm.2.2 hcM, hp.2.1 hyP, hp.2.2 hcP⟩

/-- C10: a non-terminal simulation step neither reads nor writes the
started flag — it returns `gameStarted` unchanged, and flipping
`gameStarted` beforehand changes nothing but that copied flag in the
output, in both variants. -/
theorem c10_started_frame :
    ∀ (sched : List PipeData) (s : Main.State) (s2 : Part0.State) (b b2 : Bool),
      s.gameEnd = false → s2.gameEnd = false →
      ((Main.tick s sched).gameStarted = s.gameStarted ∧
        Main.tick { s with gameStarted := b } sched =
          { Main.tick s sched with gameStarted := b }) ∧
      ((Part0.tick s2 sched).gameStarted = s2.gameStarted ∧
        Part0.tick { s2 with gameStarted := b2 } sched =
          { Part0.tick s2 sched with gameStarted := b2 }) := by
  intro sched s s2 b b2 h h2
  refine ⟨⟨?_, ?_⟩, ?_, ?_⟩
  · simp [Main.tick, h]
  · rw [Main.tick, Main.tick, if_neg (by simp [h]), if_neg (by simp [h])]
    rfl
  · simp [Part0.tick, h2]
  · rw [Part0.tick, Part0.tick, if_neg (by simp [h2]), if_neg (by simp [h2])]
    rfl

/-- C10 (witness): the frame property of the started flag at concrete
colliding fixtures. -/
theorem c10_witness :
    (Main.tick unlatchedState schedFar).gameStarted = unlatchedState.gameStarted ∧
      Main.tick { unlatchedState with gameStarted := true } schedFar =
        { Main.tick unlatchedState schedFar with gameStarted := true } ∧
      (Part0.tick expiredCooldownState schedFar).gameStarted =
        expiredCooldownState.gameStarted ∧
      Part0.tick { expiredCooldownState with gameStarted := true } schedFar =
        { Part0.tick expiredCooldownState schedFar with gameStarted := true } := by
  have h := c10_started_frame schedFar unlatchedState expiredCooldownState true true rfl rfl
  exact ⟨h.1.1, h.1.2, h.2.1, h.2.2⟩
